import Mathlib

/-!
# FxWrapper: the C interface over the effects engine and the audio pipeline

A shallow embedding of `src/FxWrapper/dllmain.cpp` and `src/FxWrapper/FxWrapper.h`.

* The three file-level globals and the adapter pointer become the fields of `Wrapper`;
  every exported function becomes a function on `Wrapper`.
* A pointer argument is an `Option`: `none` is `nullptr`, `some v` points at a cell
  holding `v`; a function that writes through a pointer returns the new cell content.
* Objects created by `new` get a fresh identity from the counter `Wrapper.nextObject`,
  so a pointer to a deleted object is never mistaken for a pointer to a later one.
* `DfxDsp.h`, `AudioPassthru.h` and `sndDevices.h` are not part of the sources. What
  their methods return is taken as a parameter of the wrapper function that calls
  them; the few pipeline fields the wrapper stores into are modelled from the spec.
* `malloc` may fail wherever the source tests its result; the outcome of each such
  call is a parameter. Allocation done by the C++ runtime outside a `try` block
  (`new DeviceChangeCallbackAdapter()`, growth of a `std::vector`) is taken to succeed.
-/

namespace FxWrapper

/-! ## Status codes (FxWrapper.h, lines 36-41) -/

def FX_SUCCESS : Int := 0
def FX_ERROR_GENERAL : Int := -1
def FX_ERROR_INVALID_PARAM : Int := -2
def FX_ERROR_NOT_INITIALIZED : Int := -3
def FX_ERROR_MEMORY : Int := -4

/-! ## Machine integers and strings -/

/-- The conversion `static_cast<int>(n)` of a `size_t` value to a 32-bit `int`:
reduction modulo `2^32` into the range `[-2^31, 2^31)`. -/
def static_cast_int (n : Nat) : Int :=
  if n % 4294967296 < 2147483648 then ((n % 4294967296 : Nat) : Int)
  else ((n % 4294967296 : Nat) : Int) - 4294967296

/-- A wide character, as its code unit; the code unit `0` is the string terminator. -/
abbrev wchar_t := Nat

/-- A `std::wstring`: its `length()` characters, among which `0` may occur. -/
abbrev wstring := List wchar_t

/-- A `wchar_t*` to a terminated wide string: `none` is `nullptr`, `some cs` points at
a buffer whose characters before the first terminator are `cs`. -/
abbrev wchar_ptr := Option (List wchar_t)

/-- The terminated string that `str.c_str()` points at, read as C code reads it:
the characters before the first `0`. -/
def c_str (str : wstring) : List wchar_t :=
  str.takeWhile (fun c => c != 0)

/-- A C `float`, as its binary32 bit pattern; `0.0f` is the pattern `0`. The wrapper
only stores and forwards such values. -/
abbrev float := Nat

/-- What a call into a collaborator does: return a value or throw. -/
inductive Outcome (α : Type) where
  | returns (value : α)
  | throws
  deriving DecidableEq, Repr

/-! ## Data (FxWrapper.h, lines 15-34; `SoundDevice` and `DfxPreset` as dllmain.cpp uses them) -/

/-- The native device record of `sndDevices.h`, reconstructed from the nine members
that dllmain.cpp reads and writes (lines 36-46, 350-360, 408-416). -/
structure SoundDevice where
  pwszID : wstring
  deviceFriendlyName : wstring
  deviceDescription : wstring
  isCaptureDevice : Bool
  isPlaybackDevice : Bool
  isDefaultDevice : Bool
  isRealDevice : Bool
  isDFXDevice : Bool
  deviceNumChannel : Int
  deriving DecidableEq, Repr

/-- The C descriptor `FxSoundDevice` (FxWrapper.h, lines 15-25). -/
structure FxSoundDevice where
  deviceId : wchar_ptr
  friendlyName : wchar_ptr
  description : wchar_ptr
  isCaptureDevice : Int
  isPlaybackDevice : Int
  isDefaultDevice : Int
  isRealDevice : Int
  isDFXDevice : Int
  numChannels : Int
  deriving DecidableEq, Repr

/-- The native preset record, reconstructed from the two members dllmain.cpp reads
(lines 250-251). -/
structure DfxPreset where
  full_path : wstring
  name : wstring
  deriving DecidableEq, Repr

/-- The C record `FxPreset` (FxWrapper.h, lines 28-31). -/
structure FxPreset where
  fullPath : wchar_ptr
  name : wchar_ptr
  deriving DecidableEq, Repr

/-- One call of a registered `FxDeviceChangeCallback`: which function was called, the
array it was handed and the count it was handed. -/
structure Invocation where
  callback : Nat
  devices : List FxSoundDevice
  deviceCount : Int
  deriving DecidableEq, Repr

/-! ## The collaborators -/

/-- The methods of the engine class `DfxDsp` that the wrapper forwards to. The class
is not part of the sources, so what each method returns is a parameter. -/
structure DfxDsp where
  setSignalFormat : Int → Int → Int → Int → Int
  processAudio : Option (List Int) → Option (List Int) → Int → Int → Int
  loadPreset : List wchar_t → Int
  savePreset : List wchar_t → List wchar_t → Int
  exportPreset : List wchar_t → List wchar_t → List wchar_t → Int
  getPresetInfo : List wchar_t → Outcome DfxPreset
  getSpectrumBandValues : List float → Int → List float

/-- Modelled from the spec: the class `AudioPassthru` is not part of the sources. The
spec gives the pipeline a selected playback device, a wired engine reference and a
single registered observer, each optional (section 3, PassthroughPipeline state);
these are the three fields the wrapper stores into, through `setAsPlaybackDevice`,
`setDspProcessingModule` and `registerCallback`. -/
structure AudioPassthru where
  playbackDevice : Option SoundDevice
  dspModule : Option Nat
  callback : Option Nat
  deriving DecidableEq, Repr

/-- Modelled from the spec: a pipeline as `new AudioPassthru()` leaves it, with no
device selected, no engine wired and no observer registered. -/
def AudioPassthru.fresh : AudioPassthru :=
  { playbackDevice := none, dspModule := none, callback := none }

/-- Modelled from the spec: `registerCallback(observer)` replaces any existing
observer (section 4.2). -/
def AudioPassthru.registerCallback (p : AudioPassthru) (observer : Option Nat) : AudioPassthru :=
  { p with callback := observer }

/-- Modelled from the spec: `setDspProcessingModule(engine)` wires the engine
reference used by later ticks (section 4.3, attachEffectsEngine). -/
def AudioPassthru.setDspProcessingModule (p : AudioPassthru) (engine : Option Nat) : AudioPassthru :=
  { p with dspModule := engine }

/-- Modelled from the spec: `setAsPlaybackDevice(device)` receives the device to
select (section 4.3, setPlaybackDevice); the field records the device handed in. -/
def AudioPassthru.setAsPlaybackDevice (p : AudioPassthru) (device : SoundDevice) : AudioPassthru :=
  { p with playbackDevice := some device }

/-- The methods of `AudioPassthru` whose result the wrapper returns to its caller.
What each returns is a parameter. -/
structure AudioPassthruMethods where
  init : Outcome Int
  getSoundDevices : Outcome (List SoundDevice)
  setBufferLength : Int → Int
  processTimer : Int

/-! ## The wrapper state (dllmain.cpp, lines 14-16 and 79) -/

/-- The globals of dllmain.cpp. `g_dfxDsp` and `g_callbackAdapter` hold the identity of
the object they point at; `g_audioPassthru` holds the pipeline it points at;
`g_deviceChangeCallback` holds the identity of a C function. -/
structure Wrapper where
  g_dfxDsp : Option Nat
  g_audioPassthru : Option AudioPassthru
  g_deviceChangeCallback : Option Nat
  g_callbackAdapter : Option Nat
  nextObject : Nat
  deriving DecidableEq, Repr

/-- The state when the library is loaded: every global is `nullptr`. -/
def Wrapper.initial : Wrapper :=
  { g_dfxDsp := none, g_audioPassthru := none, g_deviceChangeCallback := none,
    g_callbackAdapter := none, nextObject := 0 }

/-! ## String marshaling (dllmain.cpp, lines 64-75 and 82-93) -/

/-- The file-level helper `AllocateAndCopyWString` (lines 82-93). `malloc` tells whether
the allocation returns a buffer. -/
def AllocateAndCopyWString (malloc : Bool) (str : wstring) : wchar_ptr :=
  if str.isEmpty then none
  else if malloc then some (c_str str)
  else none

/-- The private helper of the adapter class with the same name (lines 64-75). -/
def DeviceChangeCallbackAdapter.AllocateAndCopyWString (malloc : Bool) (str : wstring) : wchar_ptr :=
  if str.isEmpty then none
  else if malloc then some (c_str str)
  else none

/-! ## The effects-engine half (dllmain.cpp, lines 113-283) -/

/-- The function `FxDspInitialize` (lines 113-129). `newDfxDsp` is the outcome of
`new DfxDsp()`. -/
def FxDspInitialize (newDfxDsp : Outcome Unit) (s : Wrapper) : Int × Wrapper :=
  if s.g_dfxDsp.isSome then (FX_ERROR_GENERAL, s)
  else
    match newDfxDsp with
    | .returns _ =>
      (FX_SUCCESS, { s with g_dfxDsp := some s.nextObject, nextObject := s.nextObject + 1 })
    | .throws => (FX_ERROR_GENERAL, s)

/-- The function `FxDspCleanup` (lines 131-138). -/
def FxDspCleanup (s : Wrapper) : Wrapper :=
  if s.g_dfxDsp.isSome then { s with g_dfxDsp := none } else s

/-- The function `FxDspSetSignalFormat` (lines 140-144). -/
def FxDspSetSignalFormat (dsp : DfxDsp) (s : Wrapper)
    (bitsPerSample numChannels sampleRate validBits : Int) : Int :=
  if s.g_dfxDsp.isNone then FX_ERROR_NOT_INITIALIZED
  else dsp.setSignalFormat bitsPerSample numChannels sampleRate validBits

/-- The function `FxDspProcessAudio` (lines 146-150). -/
def FxDspProcessAudio (dsp : DfxDsp) (s : Wrapper)
    (inputSamples outputSamples : Option (List Int))
    (numSampleSets checkForDuplicateBuffers : Int) : Int :=
  if s.g_dfxDsp.isNone then FX_ERROR_NOT_INITIALIZED
  else dsp.processAudio inputSamples outputSamples numSampleSets checkForDuplicateBuffers

/-- The function `FxDspLoadPreset` (lines 152-158). -/
def FxDspLoadPreset (dsp : DfxDsp) (s : Wrapper) (presetFilePath : wchar_ptr) : Int :=
  if s.g_dfxDsp.isNone then FX_ERROR_NOT_INITIALIZED
  else
    match presetFilePath with
    | none => FX_ERROR_INVALID_PARAM
    | some path => dsp.loadPreset path

/-- The function `FxDspSavePreset` (lines 160-166). -/
def FxDspSavePreset (dsp : DfxDsp) (s : Wrapper) (presetName presetFilePath : wchar_ptr) : Int :=
  if s.g_dfxDsp.isNone then FX_ERROR_NOT_INITIALIZED
  else
    match presetName, presetFilePath with
    | some name, some path => dsp.savePreset name path
    | _, _ => FX_ERROR_INVALID_PARAM

/-- The function `FxDspExportPreset` (lines 168-174). -/
def FxDspExportPreset (dsp : DfxDsp) (s : Wrapper)
    (sourceFilePath presetName exportPath : wchar_ptr) : Int :=
  if s.g_dfxDsp.isNone then FX_ERROR_NOT_INITIALIZED
  else
    match sourceFilePath, presetName, exportPath with
    | some source, some name, some dest => dsp.exportPreset source name dest
    | _, _, _ => FX_ERROR_INVALID_PARAM

/-- The function `FxDspGetPresetInfo` (lines 242-259). Returns the status and the
content of the cell `preset` points at after the call. `mallocFullPath` and
`mallocName` are the outcomes of the two string allocations. -/
def FxDspGetPresetInfo (dsp : DfxDsp) (mallocFullPath mallocName : Bool) (s : Wrapper)
    (presetFilePath : wchar_ptr) (preset : Option FxPreset) : Int × Option FxPreset :=
  match s.g_dfxDsp, presetFilePath, preset with
  | some _, some path, some _ =>
    match dsp.getPresetInfo path with
    | .returns nativePreset =>
      (FX_SUCCESS,
        some { fullPath := AllocateAndCopyWString mallocFullPath nativePreset.full_path,
               name := AllocateAndCopyWString mallocName nativePreset.name })
    | .throws => (FX_ERROR_GENERAL, preset)
  | _, _, _ => (FX_ERROR_INVALID_PARAM, preset)

/-- The function `FxDspGetSpectrumBandValues` (lines 273-277). Returns the content of
the caller array after the call. -/
def FxDspGetSpectrumBandValues (dsp : DfxDsp) (s : Wrapper)
    (bandValues : Option (List float)) (arraySize : Int) : Option (List float) :=
  match s.g_dfxDsp, bandValues with
  | some _, some values =>
    if arraySize ≤ 0 then bandValues
    else some (dsp.getSpectrumBandValues values arraySize)
  | _, _ => bandValues

/-! ## The audio-pipeline half (dllmain.cpp, lines 287-444) -/

/-- The function `FxAudioInitialize` (lines 287-303). `newAudioPassthru` is the outcome
of `new AudioPassthru()`; the outcome of `init()` comes from `m`. The global is
assigned before `init()` runs, so it keeps the new pipeline whatever `init()` does. -/
def FxAudioInitialize (newAudioPassthru : Outcome Unit) (m : AudioPassthruMethods)
    (s : Wrapper) : Int × Wrapper :=
  if s.g_audioPassthru.isSome then (FX_ERROR_GENERAL, s)
  else
    match newAudioPassthru with
    | .throws => (FX_ERROR_GENERAL, s)
    | .returns _ =>
      match m.init with
      | .returns status => (status, { s with g_audioPassthru := some AudioPassthru.fresh })
      | .throws => (FX_ERROR_GENERAL, { s with g_audioPassthru := some AudioPassthru.fresh })

/-- The function `FxAudioCleanup` (lines 305-318). -/
def FxAudioCleanup (s : Wrapper) : Wrapper :=
  let s1 := if s.g_callbackAdapter.isSome then { s with g_callbackAdapter := none } else s
  if s1.g_audioPassthru.isSome then { s1 with g_audioPassthru := none } else s1

/-- The conversion loop of `FxAudioGetSoundDevices` (lines 344-361), entered at index
`i` with the native devices from index `i` on. `malloc i j` is the outcome of the
allocation for string `j` of device `i`. -/
def FxAudioGetSoundDevices.loop (malloc : Nat → Nat → Bool) (deviceCount : Int) :
    Nat → List SoundDevice → List FxSoundDevice
  | _, [] => []
  | i, src :: rest =>
    if (i : Int) < deviceCount then
      { deviceId := AllocateAndCopyWString (malloc i 0) src.pwszID
        friendlyName := AllocateAndCopyWString (malloc i 1) src.deviceFriendlyName
        description := AllocateAndCopyWString (malloc i 2) src.deviceDescription
        isCaptureDevice := if src.isCaptureDevice then 1 else 0
        isPlaybackDevice := if src.isPlaybackDevice then 1 else 0
        isDefaultDevice := if src.isDefaultDevice then 1 else 0
        isRealDevice := if src.isRealDevice then 1 else 0
        isDFXDevice := if src.isDFXDevice then 1 else 0
        numChannels := src.deviceNumChannel } ::
        FxAudioGetSoundDevices.loop malloc deviceCount (i + 1) rest
    else []

/-- The function `FxAudioGetSoundDevices` (lines 326-369). Returns the status and the
contents of the cells `devices` and `deviceCount` point at after the call; the
content of the `devices` cell is itself a pointer, `none` for `nullptr`.
`mallocArray` is the outcome of the allocation of the descriptor array. -/
def FxAudioGetSoundDevices (m : AudioPassthruMethods) (mallocArray : Bool)
    (malloc : Nat → Nat → Bool) (s : Wrapper)
    (devices : Option (Option (List FxSoundDevice))) (deviceCount : Option Int) :
    Int × Option (Option (List FxSoundDevice)) × Option Int :=
  match s.g_audioPassthru, devices, deviceCount with
  | some _, some _, some _ =>
    match m.getSoundDevices with
    | .throws => (FX_ERROR_GENERAL, devices, deviceCount)
    | .returns nativeDevices =>
      let count := static_cast_int nativeDevices.length
      if count = 0 then (FX_SUCCESS, some none, some count)
      else if mallocArray then
        (FX_SUCCESS, some (some (FxAudioGetSoundDevices.loop malloc count 0 nativeDevices)),
          some count)
      else (FX_ERROR_MEMORY, some none, some count)
  | _, _, _ => (FX_ERROR_INVALID_PARAM, devices, deviceCount)

/-- The function `FxAudioSetBufferLength` (lines 385-389). -/
def FxAudioSetBufferLength (m : AudioPassthruMethods) (s : Wrapper) (bufferLengthMsecs : Int) : Int :=
  if s.g_audioPassthru.isNone then FX_ERROR_NOT_INITIALIZED
  else m.setBufferLength bufferLengthMsecs

/-- The function `FxAudioProcessTimer` (lines 391-395). The wrapper globals are not
assigned; the status is the one `processTimer()` returns. -/
def FxAudioProcessTimer (m : AudioPassthruMethods) (s : Wrapper) : Int × Wrapper :=
  if s.g_audioPassthru.isNone then (FX_ERROR_NOT_INITIALIZED, s)
  else (m.processTimer, s)

/-- The function `FxAudioSetDspProcessingModule` (lines 397-401). -/
def FxAudioSetDspProcessingModule (s : Wrapper) : Wrapper :=
  match s.g_audioPassthru, s.g_dfxDsp with
  | some p, some engine =>
    { s with g_audioPassthru := some (p.setDspProcessingModule (some engine)) }
  | _, _ => s

/-- The function `FxAudioSetPlaybackDevice` (lines 403-419). The three strings of the
native device are assigned from the `wchar_t*` members of the descriptor; assigning
a null `wchar_t*` to a `std::wstring` has no defined result, which is `none` here. -/
def FxAudioSetPlaybackDevice (s : Wrapper) (device : Option FxSoundDevice) : Option Wrapper :=
  match s.g_audioPassthru, device with
  | some p, some dev =>
    match dev.deviceId, dev.friendlyName, dev.description with
    | some id, some friendlyName, some description =>
      some { s with g_audioPassthru := some (p.setAsPlaybackDevice
        { pwszID := id
          deviceFriendlyName := friendlyName
          deviceDescription := description
          isCaptureDevice := dev.isCaptureDevice != 0
          isPlaybackDevice := dev.isPlaybackDevice != 0
          isDefaultDevice := dev.isDefaultDevice != 0
          isRealDevice := dev.isRealDevice != 0
          isDFXDevice := dev.isDFXDevice != 0
          deviceNumChannel := dev.numChannels }) }
    | _, _, _ => none
  | _, _ => some s

/-- The function `FxAudioRegisterDeviceChangeCallback` (lines 421-438). The adapter
created by `new DeviceChangeCallbackAdapter()` gets the next fresh identity; the
pipeline is told about it only in the branch for a non-null `callback`. -/
def FxAudioRegisterDeviceChangeCallback (callback : Option Nat) (s : Wrapper) : Wrapper :=
  match s.g_audioPassthru with
  | none => s
  | some p =>
    let s1 := { s with g_deviceChangeCallback := callback }
    let s2 := if s1.g_callbackAdapter.isSome then { s1 with g_callbackAdapter := none } else s1
    match callback with
    | none => s2
    | some _ =>
      { s2 with
        g_callbackAdapter := some s2.nextObject
        nextObject := s2.nextObject + 1
        g_audioPassthru := some (p.registerCallback (some s2.nextObject)) }

/-! ## The adapter (dllmain.cpp, lines 19-60) -/

/-- The conversion loop of `onSoundDeviceChange` (lines 30-47), entered at index `i`
with the native devices from index `i` on. -/
def DeviceChangeCallbackAdapter.onSoundDeviceChange.loop (malloc : Nat → Nat → Bool) :
    Nat → List SoundDevice → List FxSoundDevice
  | _, [] => []
  | i, src :: rest =>
    { deviceId := DeviceChangeCallbackAdapter.AllocateAndCopyWString (malloc i 0) src.pwszID
      friendlyName :=
        DeviceChangeCallbackAdapter.AllocateAndCopyWString (malloc i 1) src.deviceFriendlyName
      description :=
        DeviceChangeCallbackAdapter.AllocateAndCopyWString (malloc i 2) src.deviceDescription
      isCaptureDevice := if src.isCaptureDevice then 1 else 0
      isPlaybackDevice := if src.isPlaybackDevice then 1 else 0
      isDefaultDevice := if src.isDefaultDevice then 1 else 0
      isRealDevice := if src.isRealDevice then 1 else 0
      isDFXDevice := if src.isDFXDevice then 1 else 0
      numChannels := src.deviceNumChannel } ::
      DeviceChangeCallbackAdapter.onSoundDeviceChange.loop malloc (i + 1) rest

/-- The method `DeviceChangeCallbackAdapter::onSoundDeviceChange` (lines 22-60): the
calls of C callbacks it makes. It reads the global `g_deviceChangeCallback`. -/
def DeviceChangeCallbackAdapter.onSoundDeviceChange (malloc : Nat → Nat → Bool) (s : Wrapper)
    (sound_devices : List SoundDevice) : List Invocation :=
  match s.g_deviceChangeCallback with
  | none => []
  | some callback =>
    let fxDevices := DeviceChangeCallbackAdapter.onSoundDeviceChange.loop malloc 0 sound_devices
    [{ callback := callback, devices := fxDevices,
       deviceCount := static_cast_int fxDevices.length }]

/-- What a topology change leads to: the calls of C callbacks made, or a method call
through a pointer to an adapter that has been deleted. -/
inductive Notified where
  | delivered (calls : List Invocation)
  | useAfterFree (adapter : Nat)
  deriving DecidableEq, Repr

/-- Modelled from the spec: `AudioPassthru` is not part of the sources. On a detected
topology change the pipeline delivers the fresh snapshot once to its current
observer (section 4.2), that is, it calls `onSoundDeviceChange` through the pointer
last given to `registerCallback`. The only adapter alive is the one
`g_callbackAdapter` points at. -/
def topologyChange (malloc : Nat → Nat → Bool) (s : Wrapper)
    (snapshot : List SoundDevice) : Notified :=
  match s.g_audioPassthru with
  | none => .delivered []
  | some p =>
    match p.callback with
    | none => .delivered []
    | some adapter =>
      if s.g_callbackAdapter = some adapter then
        .delivered (DeviceChangeCallbackAdapter.onSoundDeviceChange malloc s snapshot)
      else .useAfterFree adapter

/-! ## Call sequences -/

/-- The five lifecycle and wiring calls, each with the outcomes of the collaborator
calls it makes. -/
inductive Call where
  | FxDspInitialize (newDfxDsp : Outcome Unit)
  | FxDspCleanup
  | FxAudioInitialize (newAudioPassthru : Outcome Unit) (m : AudioPassthruMethods)
  | FxAudioCleanup
  | FxAudioSetDspProcessingModule

/-- The state after one call. -/
def Call.step (s : Wrapper) : Call → Wrapper
  | .FxDspInitialize newDfxDsp => (FxWrapper.FxDspInitialize newDfxDsp s).2
  | .FxDspCleanup => FxWrapper.FxDspCleanup s
  | .FxAudioInitialize newAudioPassthru m => (FxWrapper.FxAudioInitialize newAudioPassthru m s).2
  | .FxAudioCleanup => FxWrapper.FxAudioCleanup s
  | .FxAudioSetDspProcessingModule => FxWrapper.FxAudioSetDspProcessingModule s

/-- The state after a sequence of calls, made from left to right. -/
def run (calls : List Call) (s : Wrapper) : Wrapper :=
  calls.foldl Call.step s

/-- The engine reference wired into the pipeline, if there is a pipeline and it has one. -/
def Wrapper.wiredEngine (s : Wrapper) : Option Nat :=
  match s.g_audioPassthru with
  | none => none
  | some p => p.dspModule

/-- The observer registered with the pipeline, if there is a pipeline and it has one. -/
def Wrapper.registeredObserver (s : Wrapper) : Option Nat :=
  match s.g_audioPassthru with
  | none => none
  | some p => p.callback

/-- Any call of the wrapper, with the outcomes of the collaborator calls it makes.
The exported functions that are not named here (the `FxDsp` operations other than
FxDspInitialize and FxDspCleanup, FxAudioMute, FxAudioGetSoundDevices,
FxAudioFreeSoundDevices, FxAudioSetBufferLength, FxAudioIsPlaybackDeviceAvailable,
FxFreeString, FxFreePreset, the three driver-installation functions) assign none of
the four globals and store nothing into the pipeline
fields of this model; they are the constructor `other`. -/
inductive WrapperCall where
  | lifecycle (call : Call)
  | FxAudioRegisterDeviceChangeCallback (callback : Option Nat)
  | FxAudioSetPlaybackDevice (device : Option FxSoundDevice)
  | FxAudioProcessTimer (m : AudioPassthruMethods)
  | other

/-- The state after one wrapper call; `none` when the call has no defined result. -/
def WrapperCall.step (s : Wrapper) : WrapperCall → Option Wrapper
  | .lifecycle call => some (Call.step s call)
  | .FxAudioRegisterDeviceChangeCallback callback =>
    some (FxWrapper.FxAudioRegisterDeviceChangeCallback callback s)
  | .FxAudioSetPlaybackDevice device => FxWrapper.FxAudioSetPlaybackDevice s device
  | .FxAudioProcessTimer m => some (FxWrapper.FxAudioProcessTimer m s).2
  | .other => some s

/-- The state after a sequence of wrapper calls, made from left to right; `none` when
one of them has no defined result. -/
def WrapperCall.run : List WrapperCall → Wrapper → Option Wrapper
  | [], s => some s
  | call :: rest, s =>
    match WrapperCall.step s call with
    | none => none
    | some s1 => WrapperCall.run rest s1

/-- How one call changes the answer to the question whether a pipeline has been
constructed since the start or since the last FxAudioCleanup: an FxAudioInitialize
whose `new AudioPassthru()` returns makes it true, FxAudioCleanup makes it false, and
every other call leaves it as it is. This reads the calls only, not the state. -/
def WrapperCall.constructs (constructed : Bool) : WrapperCall → Bool
  | .lifecycle (.FxAudioInitialize (.returns _) _) => true
  | .lifecycle .FxAudioCleanup => false
  | _ => constructed

/-- Whether, in a sequence of calls made from load time, some FxAudioInitialize has
constructed a pipeline since the start or since the last FxAudioCleanup. -/
def pipelineConstructed (calls : List WrapperCall) : Bool :=
  calls.foldl WrapperCall.constructs false

/-- A sequence of calls in which a pipeline is created, observed, ticked and cleaned
up, and after which an FxAudioInitialize fails in `new AudioPassthru()`. -/
def WrapperCall.sampleSequence : List WrapperCall :=
  [.lifecycle (.FxAudioInitialize (.returns ())
     { init := .returns 0, getSoundDevices := .returns [], setBufferLength := fun _ => 0,
       processTimer := 0 }),
   .FxAudioRegisterDeviceChangeCallback (some 7),
   .FxAudioProcessTimer
     { init := .returns 0, getSoundDevices := .returns [], setBufferLength := fun _ => 0,
       processTimer := 0 },
   .lifecycle .FxAudioCleanup,
   .other,
   .lifecycle (.FxAudioInitialize .throws
     { init := .returns 0, getSoundDevices := .returns [], setBufferLength := fun _ => 0,
       processTimer := 0 })]

/-! ## Sample collaborators and states -/

/-- An engine whose methods all report success and leave the spectrum array as it is. -/
def DfxDsp.sample : DfxDsp :=
  { setSignalFormat := fun _ _ _ _ => 0
    processAudio := fun _ _ _ _ => 0
    loadPreset := fun _ => 0
    savePreset := fun _ _ => 0
    exportPreset := fun _ _ _ => 0
    getPresetInfo := fun path => .returns { full_path := path, name := [] }
    getSpectrumBandValues := fun values _ => values }

/-- A pipeline whose `init()` succeeds and that reports the devices `devices`. -/
def AudioPassthruMethods.sample (devices : List SoundDevice) : AudioPassthruMethods :=
  { init := .returns 0
    getSoundDevices := .returns devices
    setBufferLength := fun _ => 0
    processTimer := 0 }

/-- A pipeline whose `init()` reports the failure status `-1` and whose tick reports `0`. -/
def AudioPassthruMethods.failingInit : AudioPassthruMethods :=
  { init := .returns (-1)
    getSoundDevices := .returns []
    setBufferLength := fun _ => 0
    processTimer := 0 }

/-- The state after a successful `FxAudioInitialize` at load time. -/
def Wrapper.audioReady : Wrapper :=
  (FxAudioInitialize (.returns ()) (AudioPassthruMethods.sample []) Wrapper.initial).2

/-- The state after `FxAudioInitialize` and the registration of the C callback `7`. -/
def Wrapper.observed : Wrapper :=
  FxAudioRegisterDeviceChangeCallback (some 7) Wrapper.audioReady

/-- The state after `FxAudioInitialize`, the registration of the C callback `7` and a
registration of the null callback. -/
def Wrapper.deregistered : Wrapper :=
  FxAudioRegisterDeviceChangeCallback none Wrapper.observed

/-- A playback device with an id and a name and with an empty description. -/
def SoundDevice.speakers : SoundDevice :=
  { pwszID := [123, 48, 46, 48, 125]
    deviceFriendlyName := [83, 112, 101, 97, 107, 101, 114, 115]
    deviceDescription := []
    isCaptureDevice := false
    isPlaybackDevice := true
    isDefaultDevice := true
    isRealDevice := true
    isDFXDevice := false
    deviceNumChannel := 2 }

/-- A capture device whose three strings are all non-empty. -/
def SoundDevice.microphone : SoundDevice :=
  { pwszID := [123, 48, 46, 49, 125]
    deviceFriendlyName := [77, 105, 99]
    deviceDescription := [85, 83, 66]
    isCaptureDevice := true
    isPlaybackDevice := false
    isDefaultDevice := false
    isRealDevice := true
    isDFXDevice := false
    deviceNumChannel := 1 }

/-- A device whose id holds the code unit `0` between two other characters. -/
def SoundDevice.embeddedNul : SoundDevice :=
  { SoundDevice.microphone with pwszID := [97, 0, 98] }

/-! ## The descriptor the interface documents -/

/-- A string as the descriptor carries it: the same characters, an empty string
becoming a null pointer. -/
def describedString (str : wstring) : wchar_ptr :=
  if str = [] then none else some str

/-- The descriptor of a native device: the three strings carried over, each flag `1`
when the native boolean is true and `0` otherwise, the channel count carried over. -/
def describedDevice (d : SoundDevice) : FxSoundDevice :=
  { deviceId := describedString d.pwszID
    friendlyName := describedString d.deviceFriendlyName
    description := describedString d.deviceDescription
    isCaptureDevice := if d.isCaptureDevice = true then 1 else 0
    isPlaybackDevice := if d.isPlaybackDevice = true then 1 else 0
    isDefaultDevice := if d.isDefaultDevice = true then 1 else 0
    isRealDevice := if d.isRealDevice = true then 1 else 0
    isDFXDevice := if d.isDFXDevice = true then 1 else 0
    numChannels := d.deviceNumChannel }

/-- No string of the device holds the code unit `0`. -/
def SoundDevice.nulFree (d : SoundDevice) : Prop :=
  0 ∉ d.pwszID ∧ 0 ∉ d.deviceFriendlyName ∧ 0 ∉ d.deviceDescription

instance (d : SoundDevice) : Decidable d.nulFree := by
  unfold SoundDevice.nulFree
  infer_instance

/-! ## Lifecycle of the pipeline -/

/-- C1: in every wrapper state that already holds a pipeline instance,
FxAudioInitialize returns FX_ERROR_GENERAL, which is not FX_SUCCESS, and leaves the
wrapper state unchanged: the pipeline instance, the registered callback and the
callback adapter are what they were. -/
theorem FxAudioInitialize_twice (newAudioPassthru : Outcome Unit) (m : AudioPassthruMethods)
    (s : Wrapper) (h : s.g_audioPassthru.isSome = true) :
    (FxAudioInitialize newAudioPassthru m s).1 = FX_ERROR_GENERAL ∧
    (FxAudioInitialize newAudioPassthru m s).1 ≠ FX_SUCCESS ∧
    (FxAudioInitialize newAudioPassthru m s).2 = s := by
  simp [FxAudioInitialize, h, FX_ERROR_GENERAL, FX_SUCCESS]

/-- C1 on the state that observes through callback `7`. -/
theorem FxAudioInitialize_twice_witness :
    Wrapper.observed.g_audioPassthru.isSome = true ∧
    ((FxAudioInitialize (.returns ()) (AudioPassthruMethods.sample []) Wrapper.observed).1
        = FX_ERROR_GENERAL ∧
      (FxAudioInitialize (.returns ()) (AudioPassthruMethods.sample []) Wrapper.observed).1
        ≠ FX_SUCCESS ∧
      (FxAudioInitialize (.returns ()) (AudioPassthruMethods.sample []) Wrapper.observed).2
        = Wrapper.observed) :=
  ⟨by decide, FxAudioInitialize_twice (.returns ()) (AudioPassthruMethods.sample [])
    Wrapper.observed (by decide)⟩

/-- C6, as stated, fails: at load time an FxAudioInitialize whose `init()` reports a
failure returns a non-success status and still leaves a pipeline instance behind, and
the following FxAudioProcessTimer returns the status of the pipeline tick, here
FX_SUCCESS, not FX_ERROR_NOT_INITIALIZED. -/
theorem FxAudioProcessTimer_after_failed_init :
    (FxAudioInitialize (.returns ()) AudioPassthruMethods.failingInit Wrapper.initial).1
      ≠ FX_SUCCESS ∧
    (FxAudioProcessTimer AudioPassthruMethods.failingInit
      (FxAudioInitialize (.returns ()) AudioPassthruMethods.failingInit Wrapper.initial).2).1
      ≠ FX_ERROR_NOT_INITIALIZED := by
  decide

/-- With no pipeline instance the tick returns FX_ERROR_NOT_INITIALIZED and leaves the
state as it is. -/
theorem FxAudioProcessTimer_without_pipeline (m : AudioPassthruMethods) (s : Wrapper)
    (h : s.g_audioPassthru = none) :
    FxAudioProcessTimer m s = (FX_ERROR_NOT_INITIALIZED, s) := by
  simp [FxAudioProcessTimer, h]

/-- One wrapper call changes the presence of a pipeline instance exactly as
`WrapperCall.constructs` says. -/
theorem step_pipeline_present (call : WrapperCall) (s s1 : Wrapper)
    (h : WrapperCall.step s call = some s1) :
    s1.g_audioPassthru.isSome = WrapperCall.constructs s.g_audioPassthru.isSome call := by
  cases call with
  | lifecycle c =>
    simp only [WrapperCall.step, Option.some.injEq] at h
    subst h
    cases c with
    | FxDspInitialize o =>
      cases o <;> cases hd : s.g_dfxDsp <;>
        simp [Call.step, FxDspInitialize, WrapperCall.constructs, hd]
    | FxDspCleanup =>
      cases hd : s.g_dfxDsp <;> simp [Call.step, FxDspCleanup, WrapperCall.constructs, hd]
    | FxAudioInitialize o m =>
      cases o <;> cases hp : s.g_audioPassthru <;> cases hi : m.init <;>
        simp [Call.step, FxAudioInitialize, WrapperCall.constructs, hp, hi]
    | FxAudioCleanup =>
      cases hp : s.g_audioPassthru <;> cases ha : s.g_callbackAdapter <;>
        simp [Call.step, FxAudioCleanup, WrapperCall.constructs, hp, ha]
    | FxAudioSetDspProcessingModule =>
      cases hp : s.g_audioPassthru <;> cases hd : s.g_dfxDsp <;>
        simp [Call.step, FxAudioSetDspProcessingModule, WrapperCall.constructs, hp, hd]
  | FxAudioRegisterDeviceChangeCallback cb =>
    simp only [WrapperCall.step, Option.some.injEq] at h
    subst h
    cases cb <;> cases hp : s.g_audioPassthru <;> cases ha : s.g_callbackAdapter <;>
      simp [FxAudioRegisterDeviceChangeCallback, WrapperCall.constructs, hp, ha]
  | FxAudioSetPlaybackDevice device =>
    simp only [WrapperCall.step] at h
    cases hp : s.g_audioPassthru with
    | none =>
      simp [FxAudioSetPlaybackDevice, hp] at h
      subst h
      simp [WrapperCall.constructs, hp]
    | some p =>
      cases device with
      | none =>
        simp [FxAudioSetPlaybackDevice, hp] at h
        subst h
        simp [WrapperCall.constructs, hp]
      | some dev =>
        cases h1 : dev.deviceId <;> cases h2 : dev.friendlyName <;>
          cases h3 : dev.description <;>
          simp [FxAudioSetPlaybackDevice, hp, h1, h2, h3] at h
        subst h
        simp [WrapperCall.constructs, hp]
  | FxAudioProcessTimer m =>
    simp only [WrapperCall.step, Option.some.injEq] at h
    subst h
    cases hp : s.g_audioPassthru <;> simp [FxAudioProcessTimer, WrapperCall.constructs, hp]
  | other =>
    simp only [WrapperCall.step, Option.some.injEq] at h
    subst h
    simp [WrapperCall.constructs]

/-- After a sequence of wrapper calls a pipeline instance is present exactly when the
calls, read on their own, say one has been constructed and not cleaned up. -/
theorem run_pipeline_present (calls : List WrapperCall) :
    ∀ s s1 : Wrapper, WrapperCall.run calls s = some s1 →
      s1.g_audioPassthru.isSome
        = calls.foldl WrapperCall.constructs s.g_audioPassthru.isSome := by
  induction calls with
  | nil =>
    intro s s1 h
    simp only [WrapperCall.run, Option.some.injEq] at h
    subst h
    rfl
  | cons call rest ih =>
    intro s s1 h
    simp only [WrapperCall.run] at h
    cases hstep : WrapperCall.step s call with
    | none => simp [hstep] at h
    | some s2 =>
      simp only [hstep] at h
      rw [ih s2 s1 h, step_pipeline_present call s s2 hstep]
      rfl

/-- C6, amended: for every sequence of wrapper calls made from load time in which no
FxAudioInitialize has constructed a pipeline instance since the start or since the
last FxAudioCleanup, FxAudioProcessTimer returns FX_ERROR_NOT_INITIALIZED and changes
no wrapper state. -/
theorem FxAudioProcessTimer_before_construction (calls : List WrapperCall) (s : Wrapper)
    (m : AudioPassthruMethods)
    (hrun : WrapperCall.run calls Wrapper.initial = some s)
    (hcalls : pipelineConstructed calls = false) :
    FxAudioProcessTimer m s = (FX_ERROR_NOT_INITIALIZED, s) := by
  have h := run_pipeline_present calls Wrapper.initial s hrun
  have h0 : Wrapper.initial.g_audioPassthru.isSome = false := rfl
  rw [h0] at h
  have hnone : s.g_audioPassthru = none := by
    cases hp : s.g_audioPassthru with
    | none => rfl
    | some p =>
      rw [hp] at h
      simp only [Option.isSome_some] at h
      exact absurd (h.trans hcalls) (by decide)
  exact FxAudioProcessTimer_without_pipeline m s hnone

/-- C6, amended, on the sample sequence: create, observe, tick, clean up, then an
FxAudioInitialize that fails in the constructor. -/
theorem FxAudioProcessTimer_before_construction_witness :
    WrapperCall.run WrapperCall.sampleSequence Wrapper.initial
      = some (FxAudioCleanup Wrapper.observed) ∧
    pipelineConstructed WrapperCall.sampleSequence = false ∧
    FxAudioProcessTimer (AudioPassthruMethods.sample []) (FxAudioCleanup Wrapper.observed)
      = (FX_ERROR_NOT_INITIALIZED, FxAudioCleanup Wrapper.observed) :=
  ⟨by decide, by decide,
    FxAudioProcessTimer_before_construction WrapperCall.sampleSequence
      (FxAudioCleanup Wrapper.observed) (AudioPassthruMethods.sample []) (by decide)
      (by decide)⟩

/-! ## Reads and statuses before initialization -/

/-- C7, as stated, fails: at load time, with no engine, FxDspGetSpectrumBandValues on a
one-entry array holding `1.0f` (bit pattern `1065353216`) and `arraySize = 1` leaves
that entry as it was, not `0`. -/
theorem FxDspGetSpectrumBandValues_not_zeroed :
    Wrapper.initial.g_dfxDsp = none ∧
    FxDspGetSpectrumBandValues DfxDsp.sample Wrapper.initial (some [1065353216]) 1
      = some [1065353216] ∧
    FxDspGetSpectrumBandValues DfxDsp.sample Wrapper.initial (some [1065353216]) 1
      ≠ some [0] := by
  decide

/-- C7, amended: when the engine is not initialized, FxDspGetSpectrumBandValues writes
nothing, so every entry of the caller array keeps the value it had before the call. -/
theorem FxDspGetSpectrumBandValues_without_engine (dsp : DfxDsp) (s : Wrapper)
    (bandValues : Option (List float)) (arraySize : Int) (h : s.g_dfxDsp = none) :
    FxDspGetSpectrumBandValues dsp s bandValues arraySize = bandValues := by
  simp [FxDspGetSpectrumBandValues, h]

/-- C7, amended, at load time on the array `[1.0f, 0.0f]`. -/
theorem FxDspGetSpectrumBandValues_without_engine_witness :
    Wrapper.initial.g_dfxDsp = none ∧
    FxDspGetSpectrumBandValues DfxDsp.sample Wrapper.initial (some [1065353216, 0]) 2
      = some [1065353216, 0] :=
  ⟨rfl, FxDspGetSpectrumBandValues_without_engine DfxDsp.sample Wrapper.initial
    (some [1065353216, 0]) 2 rfl⟩

/-- The seven status-returning operations that test the instance on its own return
FX_ERROR_NOT_INITIALIZED when their module has no instance, whatever the arguments. -/
theorem not_initialized_status (dsp : DfxDsp) (m : AudioPassthruMethods) (s : Wrapper)
    (a b c d : Int) (x y : Option (List Int)) (p q r : wchar_ptr) :
    (s.g_dfxDsp = none →
      FxDspSetSignalFormat dsp s a b c d = FX_ERROR_NOT_INITIALIZED ∧
      FxDspProcessAudio dsp s x y a b = FX_ERROR_NOT_INITIALIZED ∧
      FxDspLoadPreset dsp s p = FX_ERROR_NOT_INITIALIZED ∧
      FxDspSavePreset dsp s p q = FX_ERROR_NOT_INITIALIZED ∧
      FxDspExportPreset dsp s p q r = FX_ERROR_NOT_INITIALIZED) ∧
    (s.g_audioPassthru = none →
      FxAudioSetBufferLength m s a = FX_ERROR_NOT_INITIALIZED ∧
      (FxAudioProcessTimer m s).1 = FX_ERROR_NOT_INITIALIZED) := by
  constructor
  · intro h
    simp [FxDspSetSignalFormat, FxDspProcessAudio, FxDspLoadPreset, FxDspSavePreset,
      FxDspExportPreset, h]
  · intro h
    simp [FxAudioSetBufferLength, FxAudioProcessTimer, h]

/-- With no instance of their module, FxDspGetPresetInfo and FxAudioGetSoundDevices
return FX_ERROR_INVALID_PARAM in every state and for all arguments, and write
nothing. -/
theorem invalid_param_without_instance (dsp : DfxDsp) (m : AudioPassthruMethods)
    (mallocFullPath mallocName mallocArray : Bool) (malloc : Nat → Nat → Bool) (s : Wrapper)
    (presetFilePath : wchar_ptr) (preset : Option FxPreset)
    (devices : Option (Option (List FxSoundDevice))) (deviceCount : Option Int) :
    (s.g_dfxDsp = none →
      FxDspGetPresetInfo dsp mallocFullPath mallocName s presetFilePath preset
        = (FX_ERROR_INVALID_PARAM, preset)) ∧
    (s.g_audioPassthru = none →
      FxAudioGetSoundDevices m mallocArray malloc s devices deviceCount
        = (FX_ERROR_INVALID_PARAM, devices, deviceCount)) := by
  constructor
  · intro h
    simp [FxDspGetPresetInfo, h]
  · intro h
    simp [FxAudioGetSoundDevices, h]

/-- C8 at its failing input: at load time, with neither module initialized and every
pointer argument non-null, FxDspGetPresetInfo and FxAudioGetSoundDevices both return
FX_ERROR_INVALID_PARAM, which is not FX_ERROR_NOT_INITIALIZED, and write nothing. -/
theorem uninitialized_reported_as_invalid_param :
    FxDspGetPresetInfo DfxDsp.sample true true Wrapper.initial (some [112])
      (some { fullPath := none, name := none })
      = (FX_ERROR_INVALID_PARAM, some { fullPath := none, name := none }) ∧
    FxAudioGetSoundDevices (AudioPassthruMethods.sample [SoundDevice.microphone]) true
      (fun _ _ => true) Wrapper.initial (some none) (some 0)
      = (FX_ERROR_INVALID_PARAM, some none, some 0) ∧
    FX_ERROR_INVALID_PARAM ≠ FX_ERROR_NOT_INITIALIZED := by
  decide

/-! ## The observer -/

/-- C2 at its failing input: after FxAudioInitialize, a registration of the callback `7`
and a registration of the null callback, the wrapper holds no callback and no
adapter, yet the pipeline still holds the pointer to the adapter created for `7`
(object `0`), which has been deleted; a topology change then calls a method through
that dangling pointer. -/
theorem null_registration_keeps_pipeline_observer :
    Wrapper.observed.registeredObserver = some 0 ∧
    Wrapper.deregistered.g_deviceChangeCallback = none ∧
    Wrapper.deregistered.g_callbackAdapter = none ∧
    Wrapper.deregistered.registeredObserver = some 0 ∧
    topologyChange (fun _ _ => true) Wrapper.deregistered [SoundDevice.microphone]
      = .useAfterFree 0 := by
  decide

/-- C3: on a wrapper with a pipeline instance, after the registration of a callback `A`
followed by the registration of a different callback `B`, the adapter registered with
the pipeline is the live one, and a device-change delivery through it, for every
snapshot and every outcome of the string allocations, makes exactly one callback
call, that call is to `B`, and no call is to `A`. -/
theorem second_observer_replaces_first (s : Wrapper) (A B : Nat)
    (malloc : Nat → Nat → Bool) (snapshot : List SoundDevice)
    (hs : s.g_audioPassthru.isSome = true) (hAB : A ≠ B) :
    ∃ call adapter,
      (FxAudioRegisterDeviceChangeCallback (some B)
        (FxAudioRegisterDeviceChangeCallback (some A) s)).g_callbackAdapter = some adapter ∧
      (FxAudioRegisterDeviceChangeCallback (some B)
        (FxAudioRegisterDeviceChangeCallback (some A) s)).registeredObserver = some adapter ∧
      DeviceChangeCallbackAdapter.onSoundDeviceChange malloc
        (FxAudioRegisterDeviceChangeCallback (some B)
          (FxAudioRegisterDeviceChangeCallback (some A) s)) snapshot
        = [call] ∧
      topologyChange malloc
        (FxAudioRegisterDeviceChangeCallback (some B)
          (FxAudioRegisterDeviceChangeCallback (some A) s)) snapshot
        = .delivered [call] ∧
      call.callback = B ∧ call.callback ≠ A := by
  obtain ⟨p, hp⟩ := Option.isSome_iff_exists.mp hs
  refine ⟨Invocation.mk B
    (DeviceChangeCallbackAdapter.onSoundDeviceChange.loop malloc 0 snapshot)
    (static_cast_int (DeviceChangeCallbackAdapter.onSoundDeviceChange.loop malloc 0 snapshot).length),
    s.nextObject + 1, ?_, ?_, ?_, ?_, rfl, fun h => hAB h.symm⟩ <;>
  cases hc : s.g_callbackAdapter <;>
    simp [topologyChange, FxAudioRegisterDeviceChangeCallback, hp, hc,
      AudioPassthru.registerCallback, DeviceChangeCallbackAdapter.onSoundDeviceChange,
      Wrapper.registeredObserver]

/-- C3 on the state that already observes through callback `7`: callbacks `8` then `9`. -/
theorem second_observer_replaces_first_witness :
    Wrapper.observed.g_audioPassthru.isSome = true ∧ (8 : Nat) ≠ 9 ∧
    ∃ call adapter,
      (FxAudioRegisterDeviceChangeCallback (some 9)
        (FxAudioRegisterDeviceChangeCallback (some 8) Wrapper.observed)).g_callbackAdapter
        = some adapter ∧
      (FxAudioRegisterDeviceChangeCallback (some 9)
        (FxAudioRegisterDeviceChangeCallback (some 8) Wrapper.observed)).registeredObserver
        = some adapter ∧
      DeviceChangeCallbackAdapter.onSoundDeviceChange (fun _ _ => true)
        (FxAudioRegisterDeviceChangeCallback (some 9)
          (FxAudioRegisterDeviceChangeCallback (some 8) Wrapper.observed))
        [SoundDevice.speakers, SoundDevice.microphone]
        = [call] ∧
      topologyChange (fun _ _ => true)
        (FxAudioRegisterDeviceChangeCallback (some 9)
          (FxAudioRegisterDeviceChangeCallback (some 8) Wrapper.observed))
        [SoundDevice.speakers, SoundDevice.microphone]
        = .delivered [call] ∧
      call.callback = 9 ∧ call.callback ≠ 8 :=
  ⟨by decide, by decide,
    second_observer_replaces_first Wrapper.observed 8 9 (fun _ _ => true)
      [SoundDevice.speakers, SoundDevice.microphone] (by decide) (by decide)⟩

/-! ## The wired engine -/

/-- In every state FxDspCleanup leaves no live engine and leaves the wiring of
the pipeline as it was. -/
theorem FxDspCleanup_keeps_wiring (s : Wrapper) :
    (FxDspCleanup s).g_dfxDsp = none ∧ (FxDspCleanup s).wiredEngine = s.wiredEngine := by
  cases h : s.g_dfxDsp <;> simp [FxDspCleanup, Wrapper.wiredEngine, h]

/-- C9 at its failing input: after FxDspInitialize, FxAudioInitialize,
FxAudioSetDspProcessingModule and FxDspCleanup the pipeline is still wired to engine
object `0` while no engine is alive; after one more FxDspInitialize the live engine is
object `1` and the pipeline is still wired to the destroyed object `0`. -/
theorem wired_engine_outlives_FxDspCleanup :
    (run [.FxDspInitialize (.returns ()),
          .FxAudioInitialize (.returns ()) (AudioPassthruMethods.sample []),
          .FxAudioSetDspProcessingModule,
          .FxDspCleanup] Wrapper.initial).wiredEngine = some 0 ∧
    (run [.FxDspInitialize (.returns ()),
          .FxAudioInitialize (.returns ()) (AudioPassthruMethods.sample []),
          .FxAudioSetDspProcessingModule,
          .FxDspCleanup] Wrapper.initial).g_dfxDsp = none ∧
    (run [.FxDspInitialize (.returns ()),
          .FxAudioInitialize (.returns ()) (AudioPassthruMethods.sample []),
          .FxAudioSetDspProcessingModule,
          .FxDspCleanup,
          .FxDspInitialize (.returns ())] Wrapper.initial).wiredEngine = some 0 ∧
    (run [.FxDspInitialize (.returns ()),
          .FxAudioInitialize (.returns ()) (AudioPassthruMethods.sample []),
          .FxAudioSetDspProcessingModule,
          .FxDspCleanup,
          .FxDspInitialize (.returns ())] Wrapper.initial).g_dfxDsp = some 1 := by
  decide

/-- A registration of the null callback leaves the observer slot of the pipeline as
it was and leaves the wrapper without an adapter. -/
theorem null_registration_effect (s : Wrapper) :
    (FxAudioRegisterDeviceChangeCallback none s).registeredObserver = s.registeredObserver ∧
    (s.g_audioPassthru.isSome = true →
      (FxAudioRegisterDeviceChangeCallback none s).g_callbackAdapter = none ∧
      (FxAudioRegisterDeviceChangeCallback none s).g_deviceChangeCallback = none) := by
  cases hp : s.g_audioPassthru <;> cases hc : s.g_callbackAdapter <;>
    simp [FxAudioRegisterDeviceChangeCallback, Wrapper.registeredObserver, hp, hc]

/-! ## Device marshaling -/

/-- A string without the code unit `0` is read back whole from its terminated buffer. -/
theorem c_str_of_not_mem (str : wstring) (h : 0 ∉ str) : c_str str = str := by
  unfold c_str
  rw [List.takeWhile_eq_self_iff]
  intro c hc
  have : c ≠ 0 := fun h0 => h (h0 ▸ hc)
  simpa using this

/-- A size below `2^31` survives the conversion to `int`. -/
theorem static_cast_int_of_lt (n : Nat) (h : n < 2147483648) : static_cast_int n = (n : Int) := by
  have h1 : n % 4294967296 = n := Nat.mod_eq_of_lt (by omega)
  simp [static_cast_int, h1, h]

/-- With a successful allocation, a string without the code unit `0` is marshaled to
the documented pointer. -/
theorem AllocateAndCopyWString_described (str : wstring) (h : 0 ∉ str) :
    AllocateAndCopyWString true str = describedString str := by
  cases str with
  | nil => rfl
  | cons c cs => simp [AllocateAndCopyWString, describedString, c_str_of_not_mem _ h]

/-- The loop of FxAudioGetSoundDevices, when it runs to the end of the list and every
string allocation succeeds, yields the documented descriptor of each device. -/
theorem loop_described (malloc : Nat → Nat → Bool) (hmalloc : ∀ i j, malloc i j = true)
    (count : Int) (L : List SoundDevice) :
    ∀ i : Nat, (∀ d ∈ L, d.nulFree) → (i : Int) + (L.length : Int) ≤ count →
      FxAudioGetSoundDevices.loop malloc count i L = L.map describedDevice := by
  induction L with
  | nil => intro i _ _; rfl
  | cons d rest ih =>
    intro i hnul hle
    have hd : d.nulFree := hnul d (List.mem_cons_self _ _)
    have hi : (i : Int) < count := by
      simp only [List.length_cons, Nat.cast_add, Nat.cast_one] at hle
      omega
    have hrest := ih (i + 1) (fun e he => hnul e (List.mem_cons_of_mem _ he)) (by
      simp only [List.length_cons, Nat.cast_add, Nat.cast_one] at hle ⊢
      omega)
    simp only [FxAudioGetSoundDevices.loop, hi, if_true, hrest, List.map_cons, hmalloc,
      AllocateAndCopyWString_described _ hd.1, AllocateAndCopyWString_described _ hd.2.1,
      AllocateAndCopyWString_described _ hd.2.2, describedDevice]

/-- The loop of the adapter yields one descriptor per native device. -/
theorem loop_length (malloc : Nat → Nat → Bool) (L : List SoundDevice) :
    ∀ i : Nat, (DeviceChangeCallbackAdapter.onSoundDeviceChange.loop malloc i L).length
      = L.length := by
  induction L with
  | nil => intro i; rfl
  | cons d rest ih =>
    intro i
    simp [DeviceChangeCallbackAdapter.onSoundDeviceChange.loop, ih]

/-- The two conversion loops agree, allocation outcome by allocation outcome, when the
loop of FxAudioGetSoundDevices runs to the end of the list. -/
theorem loops_agree (malloc : Nat → Nat → Bool) (count : Int) (L : List SoundDevice) :
    ∀ i : Nat, (i : Int) + (L.length : Int) ≤ count →
      FxAudioGetSoundDevices.loop malloc count i L
        = DeviceChangeCallbackAdapter.onSoundDeviceChange.loop malloc i L := by
  induction L with
  | nil => intro i _; rfl
  | cons d rest ih =>
    intro i hle
    simp only [List.length_cons, Nat.cast_add, Nat.cast_one] at hle
    have hi : (i : Int) < count := by omega
    have hrest := ih (i + 1) (by push_cast; omega)
    simp only [FxAudioGetSoundDevices.loop, hi, if_true, hrest,
      DeviceChangeCallbackAdapter.onSoundDeviceChange.loop, AllocateAndCopyWString,
      DeviceChangeCallbackAdapter.AllocateAndCopyWString]

/-- C4, as stated, fails in three ways, each on a call of FxAudioGetSoundDevices that
returns FX_SUCCESS. When the string allocations fail, the descriptor of a device with
non-empty strings has three null pointers. A device id `[97, 0, 98]` is delivered as
`[97]`, the characters before its first `0`. A list of `2^32` devices gives
deviceCount `0` and a null array. -/
theorem FxAudioGetSoundDevices_success_without_snapshot :
    (SoundDevice.microphone.pwszID ≠ [] ∧
      FxAudioGetSoundDevices (AudioPassthruMethods.sample [SoundDevice.microphone]) true
        (fun _ _ => false) Wrapper.audioReady (some none) (some 0)
        = (FX_SUCCESS,
            some (some [{ describedDevice SoundDevice.microphone with
              deviceId := none, friendlyName := none, description := none }]),
            some 1)) ∧
    (SoundDevice.embeddedNul.pwszID = [97, 0, 98] ∧
      FxAudioGetSoundDevices (AudioPassthruMethods.sample [SoundDevice.embeddedNul]) true
        (fun _ _ => true) Wrapper.audioReady (some none) (some 0)
        = (FX_SUCCESS,
            some (some [{ describedDevice SoundDevice.embeddedNul with deviceId := some [97] }]),
            some 1)) ∧
    ((List.replicate 4294967296 SoundDevice.microphone).length = 4294967296 ∧
      FxAudioGetSoundDevices
        (AudioPassthruMethods.sample (List.replicate 4294967296 SoundDevice.microphone)) true
        (fun _ _ => true) Wrapper.audioReady (some none) (some 0)
        = (FX_SUCCESS, some none, some 0)) := by
  refine ⟨by decide, by decide, List.length_replicate _ _, ?_⟩
  have hp : Wrapper.audioReady.g_audioPassthru = some AudioPassthru.fresh := by decide
  have hc : static_cast_int 4294967296 = 0 := by decide
  simp only [FxAudioGetSoundDevices, hp, AudioPassthruMethods.sample, List.length_replicate, hc,
    if_true]

/-- C4, amended: for every native device list L of fewer than `2^31` devices, none of
whose strings holds the code unit `0`, and every call of FxAudioGetSoundDevices with
non-null arguments in which every string allocation succeeds: the call returns
FX_SUCCESS exactly when a pipeline instance exists and either L is empty or the array
allocation succeeds; and when it returns FX_SUCCESS it sets deviceCount to the
length of L and produces the descriptors of the elements of L, one per element and
in the same order: strings equal (an empty string becoming a null pointer), each
flag `1` for true and `0` for false, numChannels equal. In particular, for the empty
list on an existing pipeline it returns FX_SUCCESS with deviceCount `0` and a null
array, whatever the allocations would do. -/
theorem FxAudioGetSoundDevices_snapshot (m : AudioPassthruMethods) (mallocArray : Bool)
    (malloc : Nat → Nat → Bool) (s : Wrapper) (L : List SoundDevice)
    (devices : Option (List FxSoundDevice)) (deviceCount : Int)
    (hL : m.getSoundDevices = .returns L)
    (hlen : L.length < 2147483648)
    (hnul : ∀ d ∈ L, d.nulFree)
    (hmalloc : ∀ i j, malloc i j = true) :
    ((FxAudioGetSoundDevices m mallocArray malloc s (some devices) (some deviceCount)).1
        = FX_SUCCESS ↔
      (s.g_audioPassthru.isSome = true ∧ (L = [] ∨ mallocArray = true))) ∧
    ((FxAudioGetSoundDevices m mallocArray malloc s (some devices) (some deviceCount)).1
        = FX_SUCCESS →
      FxAudioGetSoundDevices m mallocArray malloc s (some devices) (some deviceCount)
        = (FX_SUCCESS, some (if L = [] then none else some (L.map describedDevice)),
            some (L.length : Int))) ∧
    (s.g_audioPassthru.isSome = true → L = [] →
      FxAudioGetSoundDevices m mallocArray malloc s (some devices) (some deviceCount)
        = (FX_SUCCESS, some none, some 0)) := by
  cases hp : s.g_audioPassthru with
  | none =>
    simp [FxAudioGetSoundDevices, hp, FX_ERROR_INVALID_PARAM, FX_SUCCESS]
  | some p =>
    cases L with
    | nil =>
      simp [FxAudioGetSoundDevices, hp, hL, static_cast_int]
    | cons d rest =>
      have hcount := static_cast_int_of_lt _ hlen
      have hne : ((d :: rest).length : Int) ≠ 0 := by simp; omega
      cases hma : mallocArray with
      | false =>
        simp only [FxAudioGetSoundDevices, hp, hL, hcount, hne, if_false]
        simp [FX_ERROR_MEMORY, FX_SUCCESS]
      | true =>
        have hloop := loop_described malloc hmalloc ((d :: rest).length : Int) (d :: rest) 0
          hnul (by simp)
        simp only [FxAudioGetSoundDevices, hp, hL, hcount, hne, if_false, if_true, hloop]
        simp

/-- C4, amended, on a pipeline that reports the two sample devices. -/
theorem FxAudioGetSoundDevices_snapshot_witness :
    (AudioPassthruMethods.sample [SoundDevice.speakers, SoundDevice.microphone]).getSoundDevices
      = .returns [SoundDevice.speakers, SoundDevice.microphone] ∧
    [SoundDevice.speakers, SoundDevice.microphone].length < 2147483648 ∧
    (∀ d ∈ [SoundDevice.speakers, SoundDevice.microphone], d.nulFree) ∧
    (∀ i j : Nat, (fun _ _ => true) i j = true) ∧
    (((FxAudioGetSoundDevices
        (AudioPassthruMethods.sample [SoundDevice.speakers, SoundDevice.microphone]) true
        (fun _ _ => true) Wrapper.audioReady (some none) (some 0)).1 = FX_SUCCESS ↔
      (Wrapper.audioReady.g_audioPassthru.isSome = true ∧
        ([SoundDevice.speakers, SoundDevice.microphone] = [] ∨ true = true))) ∧
    ((FxAudioGetSoundDevices
        (AudioPassthruMethods.sample [SoundDevice.speakers, SoundDevice.microphone]) true
        (fun _ _ => true) Wrapper.audioReady (some none) (some 0)).1 = FX_SUCCESS →
      FxAudioGetSoundDevices
        (AudioPassthruMethods.sample [SoundDevice.speakers, SoundDevice.microphone]) true
        (fun _ _ => true) Wrapper.audioReady (some none) (some 0)
        = (FX_SUCCESS,
            some (if [SoundDevice.speakers, SoundDevice.microphone] = [] then none
              else some ([SoundDevice.speakers, SoundDevice.microphone].map describedDevice)),
            some ([SoundDevice.speakers, SoundDevice.microphone].length : Int))) ∧
    (Wrapper.audioReady.g_audioPassthru.isSome = true →
      [SoundDevice.speakers, SoundDevice.microphone] = [] →
      FxAudioGetSoundDevices
        (AudioPassthruMethods.sample [SoundDevice.speakers, SoundDevice.microphone]) true
        (fun _ _ => true) Wrapper.audioReady (some none) (some 0)
        = (FX_SUCCESS, some none, some 0))) :=
  ⟨rfl, by decide, by decide, fun _ _ => rfl,
    FxAudioGetSoundDevices_snapshot
      (AudioPassthruMethods.sample [SoundDevice.speakers, SoundDevice.microphone]) true
      (fun _ _ => true) Wrapper.audioReady [SoundDevice.speakers, SoundDevice.microphone]
      none 0 rfl (by decide) (by decide) (fun _ _ => rfl)⟩

/-- The empty snapshot at a concrete state: with a pipeline that reports no device,
FxAudioGetSoundDevices returns FX_SUCCESS with a null array and deviceCount `0`, also
when every allocation would fail. -/
theorem FxAudioGetSoundDevices_empty_snapshot :
    FxAudioGetSoundDevices (AudioPassthruMethods.sample []) false (fun _ _ => false)
      Wrapper.audioReady (some (some [describedDevice SoundDevice.microphone])) (some 5)
      = (FX_SUCCESS, some none, some 0) := by
  decide

/-- C5, as stated, fails in two ways, each with the callback `7` registered. A
notification carrying `2^31` devices makes one callback call whose deviceCount is
`-2^31`, not the length of the list. And for the one-device list holding the sample
microphone, a notification whose string allocations fail delivers a descriptor with
three null strings, while FxAudioGetSoundDevices, its allocations succeeding,
produces the descriptor with the three strings. -/
theorem onSoundDeviceChange_snapshot_differs :
    Wrapper.observed.g_deviceChangeCallback = some 7 ∧
    ((List.replicate 2147483648 SoundDevice.microphone).length = 2147483648 ∧
      (DeviceChangeCallbackAdapter.onSoundDeviceChange (fun _ _ => true) Wrapper.observed
        (List.replicate 2147483648 SoundDevice.microphone)).map Invocation.deviceCount
        = [-2147483648]) ∧
    (DeviceChangeCallbackAdapter.onSoundDeviceChange (fun _ _ => false) Wrapper.observed
        [SoundDevice.microphone]
        = [{ callback := 7
             devices := [{ describedDevice SoundDevice.microphone with
               deviceId := none, friendlyName := none, description := none }]
             deviceCount := 1 }] ∧
      FxAudioGetSoundDevices (AudioPassthruMethods.sample [SoundDevice.microphone]) true
        (fun _ _ => true) Wrapper.observed (some none) (some 0)
        = (FX_SUCCESS, some (some [describedDevice SoundDevice.microphone]), some 1) ∧
      (describedDevice SoundDevice.microphone).deviceId ≠ none) := by
  refine ⟨by decide, ⟨List.length_replicate _ _, ?_⟩, by decide⟩
  have hcb : Wrapper.observed.g_deviceChangeCallback = some 7 := by decide
  have hc : static_cast_int 2147483648 = -2147483648 := by decide
  simp only [DeviceChangeCallbackAdapter.onSoundDeviceChange, hcb, loop_length,
    List.length_replicate, hc, List.map_cons, List.map_nil]

/-- C5, amended: for every native device list L of fewer than `2^31` devices and every
registered non-null callback, one notification onSoundDeviceChange(L) makes exactly
one callback call, to that callback, with deviceCount equal to the length of L and
one descriptor per device, and the descriptors and the count are those a successful
FxAudioGetSoundDevices produces for the same L under the same outcomes of the string
allocations (a null array standing for the empty sequence); with no callback
registered the notification makes no call. -/
theorem onSoundDeviceChange_full_snapshot (malloc : Nat → Nat → Bool) (s : Wrapper)
    (callback : Nat) (L : List SoundDevice) (m : AudioPassthruMethods)
    (devices : Option (List FxSoundDevice)) (deviceCount : Int)
    (hcb : s.g_deviceChangeCallback = some callback)
    (hlen : L.length < 2147483648)
    (hs : s.g_audioPassthru.isSome = true)
    (hL : m.getSoundDevices = .returns L) :
    (∃ call,
      DeviceChangeCallbackAdapter.onSoundDeviceChange malloc s L = [call] ∧
      call.callback = callback ∧
      call.deviceCount = (L.length : Int) ∧
      call.devices.length = L.length ∧
      FxAudioGetSoundDevices m true malloc s (some devices) (some deviceCount)
        = (FX_SUCCESS, some (if L = [] then none else some call.devices),
            some call.deviceCount)) ∧
    DeviceChangeCallbackAdapter.onSoundDeviceChange malloc
      { s with g_deviceChangeCallback := none } L = [] := by
  obtain ⟨p, hp⟩ := Option.isSome_iff_exists.mp hs
  have hlen2 := loop_length malloc L 0
  refine ⟨⟨Invocation.mk callback
      (DeviceChangeCallbackAdapter.onSoundDeviceChange.loop malloc 0 L)
      (static_cast_int (DeviceChangeCallbackAdapter.onSoundDeviceChange.loop malloc 0 L).length),
      ?_, rfl, ?_, hlen2, ?_⟩, ?_⟩
  · simp [DeviceChangeCallbackAdapter.onSoundDeviceChange, hcb]
  · simp only [hlen2, static_cast_int_of_lt _ hlen]
  · simp only [hlen2, static_cast_int_of_lt _ hlen]
    cases L with
    | nil => simp [FxAudioGetSoundDevices, hp, hL, static_cast_int]
    | cons d rest =>
      have hcount := static_cast_int_of_lt _ hlen
      have hne : ((d :: rest).length : Int) ≠ 0 := by simp; omega
      have hloop := loops_agree malloc ((d :: rest).length : Int) (d :: rest) 0 (by simp)
      simp only [FxAudioGetSoundDevices, hp, hL, hcount, hne, if_false, if_true, hloop]
      simp
  · simp [DeviceChangeCallbackAdapter.onSoundDeviceChange]

/-- C5, amended, on the two sample devices with the callback `7` registered. -/
theorem onSoundDeviceChange_full_snapshot_witness :
    Wrapper.observed.g_deviceChangeCallback = some 7 ∧
    [SoundDevice.speakers, SoundDevice.microphone].length < 2147483648 ∧
    Wrapper.observed.g_audioPassthru.isSome = true ∧
    (AudioPassthruMethods.sample [SoundDevice.speakers, SoundDevice.microphone]).getSoundDevices
      = .returns [SoundDevice.speakers, SoundDevice.microphone] ∧
    ((∃ call,
      DeviceChangeCallbackAdapter.onSoundDeviceChange (fun _ _ => true) Wrapper.observed
        [SoundDevice.speakers, SoundDevice.microphone] = [call] ∧
      call.callback = 7 ∧
      call.deviceCount = ([SoundDevice.speakers, SoundDevice.microphone].length : Int) ∧
      call.devices.length = [SoundDevice.speakers, SoundDevice.microphone].length ∧
      FxAudioGetSoundDevices
        (AudioPassthruMethods.sample [SoundDevice.speakers, SoundDevice.microphone]) true
        (fun _ _ => true) Wrapper.observed (some none) (some 0)
        = (FX_SUCCESS,
            some (if [SoundDevice.speakers, SoundDevice.microphone] = [] then none
              else some call.devices),
            some call.deviceCount)) ∧
    DeviceChangeCallbackAdapter.onSoundDeviceChange (fun _ _ => true)
      { Wrapper.observed with g_deviceChangeCallback := none }
      [SoundDevice.speakers, SoundDevice.microphone] = []) :=
  ⟨by decide, by decide, by decide, rfl,
    onSoundDeviceChange_full_snapshot (fun _ _ => true) Wrapper.observed 7
      [SoundDevice.speakers, SoundDevice.microphone]
      (AudioPassthruMethods.sample [SoundDevice.speakers, SoundDevice.microphone]) none 0
      (by decide) (by decide) (by decide) rfl⟩

/-- C10 at its failing input: the sample playback device has an empty description;
FxAudioGetSoundDevices produces for it a descriptor whose description is a null
pointer, and FxAudioSetPlaybackDevice on that descriptor assigns the null pointer to
a native string, which has no defined result, so the pipeline is handed no device. -/
theorem empty_description_cannot_be_selected :
    SoundDevice.speakers.deviceDescription = [] ∧
    FxAudioGetSoundDevices (AudioPassthruMethods.sample [SoundDevice.speakers]) true
      (fun _ _ => true) Wrapper.audioReady (some none) (some 0)
      = (FX_SUCCESS, some (some [describedDevice SoundDevice.speakers]), some 1) ∧
    (describedDevice SoundDevice.speakers).description = none ∧
    FxAudioSetPlaybackDevice Wrapper.audioReady (some (describedDevice SoundDevice.speakers))
      = none := by
  decide

/-- A device whose three strings are non-empty and free of the code unit `0` does
round-trip: the descriptor produced for it, handed to FxAudioSetPlaybackDevice, hands
the pipeline a device equal to it. -/
theorem round_trip_of_nonempty_strings (malloc : Nat → Nat → Bool) (s : Wrapper)
    (p : AudioPassthru) (d : SoundDevice)
    (hmalloc : ∀ i j, malloc i j = true)
    (hp : s.g_audioPassthru = some p)
    (hnul : d.nulFree)
    (hne : d.pwszID ≠ [] ∧ d.deviceFriendlyName ≠ [] ∧ d.deviceDescription ≠ []) :
    FxAudioGetSoundDevices.loop malloc 1 0 [d] = [describedDevice d] ∧
    FxAudioSetPlaybackDevice s (some (describedDevice d))
      = some { s with g_audioPassthru := some (p.setAsPlaybackDevice d) } := by
  constructor
  · exact loop_described malloc hmalloc 1 [d] 0 (by simpa using hnul) (by simp)
  · obtain ⟨h1, h2, h3⟩ := hne
    cases d with
    | mk id fn ds b1 b2 b3 b4 b5 n =>
      cases b1 <;> cases b2 <;> cases b3 <;> cases b4 <;> cases b5 <;>
        simp_all [FxAudioSetPlaybackDevice, describedDevice, describedString]

end FxWrapper
